import Mathlib

/-!
Shallow embedding of the GauSim/nestjs-typeorm demo repository:
the Item entity / ItemDTO boundary (src/item/item.dto.ts,
src/model/item.entity.ts, src/model/base.entity.ts), the environment
ConfigService (src/config/config.service.ts, quoted in full in the
repository's blog text), and the seed script (src/scripts/seed.ts).

JavaScript objects are modelled as structures whose properties may be
unset: a property of TypeScript type `T` becomes `Option T`, with `none`
standing for `undefined`.  A nullable audit property (`string | null`)
becomes `Option (Option String)`: `none` = never assigned (undefined),
`some none` = assigned `null`, `some (some s)` = assigned the string `s`.
Timestamps (`Date`) are modelled as `Nat` millisecond counts, and the
clock (`new Date()`, `Date.now()`) is passed in as an explicit `now`/`ts`
argument.  The process environment is an association list from key to
string value; a missing variable is a failed lookup.
-/

namespace NestTypeorm

/-- From src/user.decorator.ts: `export interface User { id: string; }`. -/
structure User where
  id : String
deriving DecidableEq, Repr

/-- From src/model/base.entity.ts and src/model/item.entity.ts: the audit
base record plus the Item columns `name` and `description`, as the plain
JavaScript object built by `new Item()` and subsequent property
assignments.  Every property starts out unset (`none` = undefined). -/
structure Item where
  id : Option String := none
  isActive : Option Bool := none
  isArchived : Option Bool := none
  createDateTime : Option Nat := none
  createdBy : Option (Option String) := none
  lastChangedDateTime : Option Nat := none
  lastChangedBy : Option (Option String) := none
  internalComment : Option (Option String) := none
  name : Option String := none
  description : Option String := none
deriving DecidableEq, Repr

/-- From src/item/item.dto.ts: the ItemDTO object.  Its static factories
receive `Partial<ItemDTO>`, so each property may be undefined (`none`). -/
structure ItemDTO where
  id : Option String := none
  name : Option String := none
  description : Option String := none
deriving DecidableEq, Repr

/-- In the static method `ItemDTO.toEntity`, `this` is the `ItemDTO`
class object itself, so the expression `this.name` evaluates to the
class's built-in `name` property: the string "ItemDTO". -/
def ItemDTO.staticName : String := "ItemDTO"

/-- `ItemDTO.from(dto: Partial<ItemDTO>)`: copies `id`, `name`,
`description` of the partial DTO onto a fresh ItemDTO. -/
def ItemDTO.«from» (dto : ItemDTO) : ItemDTO :=
  { id := dto.id, name := dto.name, description := dto.description }

/-- `ItemDTO.fromEntity(entity: Item)`: projects `id`, `name`,
`description` of the entity through `ItemDTO.from`. -/
def ItemDTO.fromEntity (entity : Item) : ItemDTO :=
  ItemDTO.«from» { id := entity.id, name := entity.name, description := entity.description }

/-- `ItemDTO.toEntity(dto: Partial<ItemDTO>, user: User = null)`:
builds `new Item()` and assigns
  `it.id = dto.id; it.name = this.name; it.description = dto.description;
   it.createDateTime = new Date();
   it.createdBy = user ? user.id : null;
   it.lastChangedBy = user ? user.id : null;`.
`this.name` is the class name string (see `ItemDTO.staticName`); the
ternary on the nullable `user` is `Option.map User.id user`; the clock
`new Date()` is the explicit argument `now`. -/
def ItemDTO.toEntity (dto : ItemDTO) (user : Option User) (now : Nat) : Item :=
  { id := dto.id
    name := some ItemDTO.staticName
    description := dto.description
    createDateTime := some now
    createdBy := some (Option.map User.id user)
    lastChangedBy := some (Option.map User.id user) }

/-! ## ConfigService (src/config/config.service.ts, quoted in the blog text) -/

/-- The process environment: key/value pairs; `lookup` of an absent key
models an undefined environment variable. -/
abbrev EnvMap := List (String × String)

/-- JavaScript falsiness of a string-or-undefined value: `undefined` and
the empty string are falsy (`!value` in `getValue`). -/
def jsFalsy : Option String → Bool
  | none => true
  | some v => v == ""

/-- `ConfigService.getValue(key, throwOnMissing = true)`:
  `const value = this.env[key];
   if (!value && throwOnMissing) throw new Error('config error - missing env.' + key);
   return value;`. -/
def ConfigService.getValue (env : EnvMap) (key : String) (throwOnMissing : Bool) :
    Except String (Option String) :=
  let value := env.lookup key
  if jsFalsy value && throwOnMissing then
    Except.error ("config error - missing env." ++ key)
  else
    Except.ok value

/-- `ConfigService.ensureValues(keys)`: `keys.forEach(k => this.getValue(k, true));
return this;` — the first throwing lookup aborts the whole call. -/
def ConfigService.ensureValues (env : EnvMap) : List String → Except String EnvMap
  | [] => Except.ok env
  | k :: rest =>
    match ConfigService.getValue env k true with
    | Except.error e => Except.error e
    | Except.ok _ => ConfigService.ensureValues env rest

/-- `ConfigService.isProduction()`:
  `const mode = this.getValue('MODE', false); return mode != 'DEV';`.
With `throwOnMissing = false` the lookup never throws; JavaScript's loose
`!=` against the string 'DEV' is true for `undefined` and for any other
string.  The error branch is unreachable. -/
def ConfigService.isProduction (env : EnvMap) : Bool :=
  match ConfigService.getValue env "MODE" false with
  | Except.ok mode => !(mode == some "DEV")
  | Except.error _ => true

/-- JavaScript `parseInt` restricted to the non-negative decimal strings
that occur here: parse the maximal leading digit run; no digits = NaN =
`none`. -/
def jsParseInt (s : String) : Option Nat :=
  let ds := s.toList.takeWhile Char.isDigit
  if ds.isEmpty then none
  else some (ds.foldl (fun n c => n * 10 + (c.toNat - Char.toNat '0')) 0)

/-- The TypeOrmModuleOptions literal returned by `getTypeOrmConfig`. -/
structure TypeOrmConfig where
  type : String
  host : Option String
  port : Option Nat
  username : Option String
  password : Option String
  database : Option String
  entities : List String
  migrationsTableName : String
  migrations : List String
  ssl : Bool
deriving DecidableEq, Repr

/-- `ConfigService.getTypeOrmConfig()`: reads the five POSTGRES_* values
through `getValue` (throwing defaults) in the source's field order and
assembles the options literal; `port` is `parseInt` of the raw value and
`ssl` is `isProduction()`. -/
def ConfigService.getTypeOrmConfig (env : EnvMap) : Except String TypeOrmConfig := do
  let host ← ConfigService.getValue env "POSTGRES_HOST" true
  let portRaw ← ConfigService.getValue env "POSTGRES_PORT" true
  let username ← ConfigService.getValue env "POSTGRES_USER" true
  let password ← ConfigService.getValue env "POSTGRES_PASSWORD" true
  let database ← ConfigService.getValue env "POSTGRES_DATABASE" true
  Except.ok
    { type := "postgres"
      host := host
      port := portRaw.bind jsParseInt
      username := username
      password := password
      database := database
      entities := ["**/*.entity\x7b.ts,.js\x7d"]
      migrationsTableName := "migration"
      migrations := ["src/migration/*.ts"]
      ssl := ConfigService.isProduction env }

/-- The required keys passed to `ensureValues` when the module-level
`configService` singleton is constructed. -/
def requiredKeys : List String :=
  ["POSTGRES_HOST", "POSTGRES_PORT", "POSTGRES_USER", "POSTGRES_PASSWORD", "POSTGRES_DATABASE"]

/-- Construction of the module-level singleton:
`new ConfigService(process.env).ensureValues([...requiredKeys])`. -/
def configServiceInit (env : EnvMap) : Except String EnvMap :=
  ConfigService.ensureValues env requiredKeys

/-! ## Seed script (src/scripts/seed.ts) -/

/-- The indexed reduce inside `seedId`:
`.reduce((s, it, x) => (x > 3 ? s : (s += it)), '')` over the reversed
character array; the accumulated string is modelled as a character list. -/
def seedReduce : Nat → List Char → List Char → List Char
  | _, s, [] => s
  | x, s, it :: rest => seedReduce (x + 1) (if x > 3 then s else s ++ [it]) rest

/-- `const seedId = Date.now().toString().split('').reverse().reduce(...)`
with the millisecond clock passed in as `ts`. -/
def seedId (ts : Nat) : String :=
  (seedReduce 0 [] (toString ts).toList.reverse).asString

/-- The DTO batch built by the seed script:
`_.range(1, 10).map(n => ItemDTO.from({ name: ..., description: 'created from seed' }))`. -/
def seedWork (ts : Nat) : List ItemDTO :=
  (List.range' 1 9).map fun n =>
    ItemDTO.«from»
      { name := some ("seed" ++ seedId ts ++ "-" ++ toString n)
        description := some "created from seed" }

/-- Outcome of the seed process: console lines of the final handler and
the process exit code. -/
structure ScriptExit where
  logs : List String
  exitCode : Nat
deriving DecidableEq, Repr

/-- The top level of seed.ts:
`run().then(_ => console.log('...wait for script to exit'))
      .catch(error => console.error('seed error', error));`.
`run()`'s batch either resolves with the created DTOs or rejects with the
first error (`Promise.all`); that result is the argument.  The `.catch`
handler logs and returns normally, so the rejection is handled, and the
script never calls `process.exit`; under Node.js semantics the process
therefore exits with code 0 on both paths. -/
def seedScriptMain (result : Except String (List ItemDTO)) : ScriptExit :=
  match result with
  | Except.ok _ => { logs := ["...wait for script to exit"], exitCode := 0 }
  | Except.error e => { logs := ["seed error " ++ e], exitCode := 0 }

/-! ## Helper lemmas -/

/-- The indexed reduce keeps exactly the characters at indices 0..3: it
appends the first `4 - x` characters of the remaining list. -/
theorem seedReduce_eq_take (l : List Char) :
    ∀ (x : Nat) (s : List Char), seedReduce x s l = s ++ l.take (4 - x) := by
  induction l with
  | nil => intro x s; simp [seedReduce]
  | cons c rest ih =>
    intro x s
    rw [seedReduce]
    by_cases hx : x > 3
    · have h0 : 4 - x = 0 := by omega
      have h1 : 4 - (x + 1) = 0 := by omega
      simp [hx, ih, h0, h1]
    · have h1 : 4 - x = (4 - (x + 1)) + 1 := by omega
      simp [hx, ih, h1, List.take_succ_cons]

/-- `seedId` is the first four characters of the reversed decimal string
of the timestamp, i.e. the low-order digits in reversed order. -/
theorem seedId_eq_rev_take (ts : Nat) :
    seedId ts = ((toString ts).toList.reverse.take 4).asString := by
  rw [seedId, seedReduce_eq_take]
  simp

/-- A non-falsy lookup passes `getValue` through unchanged. -/
theorem getValue_ok (env : EnvMap) (k : String)
    (h : jsFalsy (env.lookup k) = false) :
    ConfigService.getValue env k true = Except.ok (env.lookup k) := by
  simp [ConfigService.getValue, h]

/-! ## Claim theorems -/

/-- C1: the spec's round-trip claim `fromEntity(toEntity(dto, u)).name =
dto.name` fails on the code: inside the static `toEntity`, `it.name =
this.name` assigns the class name string "ItemDTO" to every entity, so
the round-trip returns name "ItemDTO" regardless of the input DTO.  The
blog's own expected seed output (`done -> seed2302-1`) shows the intended
behavior, so this is a slip in the code (`this.name` for `dto.name`).
Evaluation at the failing input: a DTO named "seed2302-1". -/
theorem round_trip_name_eval :
    (ItemDTO.fromEntity (ItemDTO.toEntity
        { id := none, name := some "seed2302-1", description := some "created from seed" }
        (some { id := "seed-user" }) 0)).name = some "ItemDTO" ∧
    (ItemDTO.fromEntity (ItemDTO.toEntity
        { id := none, name := some "seed2302-1", description := some "created from seed" }
        (some { id := "seed-user" }) 0)).name ≠ some "seed2302-1" := by
  exact ⟨rfl, by decide⟩

/-- C2 counterexample: at millisecond timestamp 1570350985895 (the
repository's own migration timestamp) the last four decimal digits in
their original left-to-right order are "5895", but the code's epoch is
"5985" — the reduce keeps the first four characters of the *reversed*
digit string and never re-reverses them, so the claimed names
`seed5895-n` do not match the produced names `seed5985-n`. -/
theorem seed_epoch_counterexample :
    seedId 1570350985895 = "5985" ∧
    seedId 1570350985895 ≠ "5895" ∧
    (seedWork 1570350985895).map (fun d => d.name) =
      ["seed5985-1", "seed5985-2", "seed5985-3", "seed5985-4", "seed5985-5",
       "seed5985-6", "seed5985-7", "seed5985-8", "seed5985-9"].map some := by
  refine ⟨by decide, by decide, by decide⟩

/-- C2 amended: the seed script builds exactly 9 DTOs named
`seed<epoch>-1` .. `seed<epoch>-9` with fixed description
'created from seed', where `<epoch>` is the last four decimal digits of
the millisecond timestamp in *reversed* order (the first four characters
of the reversed decimal string). -/
theorem seed_work_spec (ts : Nat) :
    seedId ts = ((toString ts).toList.reverse.take 4).asString ∧
    (seedWork ts).length = 9 ∧
    (seedWork ts).map (fun d => d.name) =
      (List.range' 1 9).map (fun n => some ("seed" ++ seedId ts ++ "-" ++ toString n)) ∧
    ∀ d ∈ seedWork ts, d.description = some "created from seed" := by
  refine ⟨seedId_eq_rev_take ts, by simp [seedWork], ?_, ?_⟩
  · simp [seedWork, ItemDTO.«from», List.map_map]
  · intro d hd
    rw [seedWork] at hd
    simp only [List.mem_map] at hd
    obtain ⟨n, hn, hEq⟩ := hd
    simp [← hEq, ItemDTO.«from»]

/-- C2 witness: the amended characterisation evaluated at the concrete
timestamp 1570350985895. -/
theorem seed_work_spec_witness :
    (seedWork 1570350985895).map (fun d => d.name) =
      (List.range' 1 9).map (fun n => some ("seed" ++ seedId 1570350985895 ++ "-" ++ toString n)) :=
  (seed_work_spec 1570350985895).2.2.1

/-- C3 counterexample: when the batch insert fails, the seed script's
final `.catch` handler logs `seed error ...` and returns normally; no
`process.exit` is ever called, so the process exits with code 0, not a
non-zero code as the claim states. -/
theorem seed_exit_counterexample :
    (seedScriptMain (Except.error "insert failed")).exitCode = 0 ∧
    (seedScriptMain (Except.error "insert failed")).logs = ["seed error insert failed"] :=
  ⟨rfl, rfl⟩

/-- C3 amended: on any failure the script logs the error with the
`seed error` context, and on success it logs the completion line, but in
both cases the rejection is handled and the process exit code is 0 — the
script never requests a non-zero exit. -/
theorem seed_script_exit_spec (r : Except String (List ItemDTO)) :
    (seedScriptMain r).exitCode = 0 ∧
    (∀ e, r = Except.error e → (seedScriptMain r).logs = ["seed error " ++ e]) ∧
    (∀ l, r = Except.ok l → (seedScriptMain r).logs = ["...wait for script to exit"]) := by
  cases r <;> simp [seedScriptMain]

/-- C3 witness: the amended behaviour at a concrete failing run. -/
theorem seed_script_exit_spec_witness :
    (seedScriptMain (Except.error "db down")).logs = ["seed error db down"] :=
  (seed_script_exit_spec (Except.error "db down")).2.1 "db down" rfl

/-- C4: `toEntity` alone never synthesises an id: the entity's `id` is
exactly the dto's `id` (in particular undefined when the dto carries
none); generated identifiers can only appear through a later persistence
round-trip, not through this constructor. -/
theorem to_entity_no_generated_id (dto : ItemDTO) (user : Option User) (now : Nat) :
    (ItemDTO.toEntity dto user now).id = dto.id :=
  rfl

/-- C5: `toEntity(dto, null)` assigns null (`some none`) to both
`createdBy` and `lastChangedBy`; `toEntity(dto, {id:"u1"})` assigns "u1"
to both; in both cases `createDateTime` is stamped with the current
clock value `now`. -/
theorem to_entity_audit_stamp (dto : ItemDTO) (now : Nat) :
    (ItemDTO.toEntity dto none now).createdBy = some none ∧
    (ItemDTO.toEntity dto none now).lastChangedBy = some none ∧
    (ItemDTO.toEntity dto (some { id := "u1" }) now).createdBy = some (some "u1") ∧
    (ItemDTO.toEntity dto (some { id := "u1" }) now).lastChangedBy = some (some "u1") ∧
    (ItemDTO.toEntity dto none now).createDateTime = some now ∧
    (ItemDTO.toEntity dto (some { id := "u1" }) now).createDateTime = some now :=
  ⟨rfl, rfl, rfl, rfl, rfl, rfl⟩

/-- C6: constructing the config singleton runs `ensureValues` over the
five required POSTGRES_* keys: if all are present and non-empty it
succeeds, and if one key is absent or empty (the others being fine) it
fails with the error message naming exactly that key. -/
theorem ensure_values_fail_fast (env : EnvMap) :
    ((∀ k ∈ requiredKeys, jsFalsy (env.lookup k) = false) →
      configServiceInit env = Except.ok env) ∧
    (∀ k ∈ requiredKeys, jsFalsy (env.lookup k) = true →
      (∀ k2 ∈ requiredKeys, k2 ≠ k → jsFalsy (env.lookup k2) = false) →
      configServiceInit env = Except.error ("config error - missing env." ++ k)) := by
  constructor
  · intro h
    have h1 := h "POSTGRES_HOST" (by simp [requiredKeys])
    have h2 := h "POSTGRES_PORT" (by simp [requiredKeys])
    have h3 := h "POSTGRES_USER" (by simp [requiredKeys])
    have h4 := h "POSTGRES_PASSWORD" (by simp [requiredKeys])
    have h5 := h "POSTGRES_DATABASE" (by simp [requiredKeys])
    simp [configServiceInit, requiredKeys, ConfigService.ensureValues, ConfigService.getValue,
      h1, h2, h3, h4, h5]
  · intro k hk hbad hothers
    simp only [requiredKeys, List.mem_cons, List.not_mem_nil, or_false] at hk
    rcases hk with rfl | rfl | rfl | rfl | rfl
    · simp [configServiceInit, requiredKeys, ConfigService.ensureValues, ConfigService.getValue,
        hbad]
    · have h1 := hothers "POSTGRES_HOST" (by simp [requiredKeys]) (by decide)
      simp [configServiceInit, requiredKeys, ConfigService.ensureValues, ConfigService.getValue,
        h1, hbad]
    · have h1 := hothers "POSTGRES_HOST" (by simp [requiredKeys]) (by decide)
      have h2 := hothers "POSTGRES_PORT" (by simp [requiredKeys]) (by decide)
      simp [configServiceInit, requiredKeys, ConfigService.ensureValues, ConfigService.getValue,
        h1, h2, hbad]
    · have h1 := hothers "POSTGRES_HOST" (by simp [requiredKeys]) (by decide)
      have h2 := hothers "POSTGRES_PORT" (by simp [requiredKeys]) (by decide)
      have h3 := hothers "POSTGRES_USER" (by simp [requiredKeys]) (by decide)
      simp [configServiceInit, requiredKeys, ConfigService.ensureValues, ConfigService.getValue,
        h1, h2, h3, hbad]
    · have h1 := hothers "POSTGRES_HOST" (by simp [requiredKeys]) (by decide)
      have h2 := hothers "POSTGRES_PORT" (by simp [requiredKeys]) (by decide)
      have h3 := hothers "POSTGRES_USER" (by simp [requiredKeys]) (by decide)
      have h4 := hothers "POSTGRES_PASSWORD" (by simp [requiredKeys]) (by decide)
      simp [configServiceInit, requiredKeys, ConfigService.ensureValues, ConfigService.getValue,
        h1, h2, h3, h4, hbad]

/-- An environment missing only POSTGRES_PASSWORD. -/
def envMissingPassword : EnvMap :=
  [("POSTGRES_HOST", "localhost"), ("POSTGRES_PORT", "5432"),
   ("POSTGRES_USER", "postgres"), ("POSTGRES_DATABASE", "db")]

/-- C6 witness: omitting POSTGRES_PASSWORD aborts construction with the
error naming that key. -/
theorem ensure_values_fail_fast_witness :
    configServiceInit envMissingPassword =
      Except.error ("config error - missing env." ++ "POSTGRES_PASSWORD") :=
  (ensure_values_fail_fast envMissingPassword).2 "POSTGRES_PASSWORD"
    (by decide) (by decide) (by decide)

/-- C7: `isProduction()` is false exactly when the environment has
MODE present with value DEV; an absent MODE or any other value (the
loose `!=` against 'DEV') yields true. -/
theorem is_production_iff (env : EnvMap) :
    ConfigService.isProduction env = false ↔ env.lookup "MODE" = some "DEV" := by
  simp [ConfigService.isProduction, ConfigService.getValue]

/-- C7 witness: with MODE=DEV the production posture is off. -/
theorem is_production_iff_witness :
    ConfigService.isProduction [("MODE", "DEV")] = false :=
  (is_production_iff [("MODE", "DEV")]).mpr (by decide)

/-- C8: with all required keys present and non-empty,
`getTypeOrmConfig()` succeeds and its descriptor takes host, username,
password and database verbatim from the respective POSTGRES_* values,
parses the port from POSTGRES_PORT as an integer, names the migrations
table 'migration', and sets the ssl flag to `isProduction()`. -/
theorem get_typeorm_config_spec (env : EnvMap)
    (h : ∀ k ∈ requiredKeys, jsFalsy (env.lookup k) = false) :
    ∃ cfg, ConfigService.getTypeOrmConfig env = Except.ok cfg ∧
      cfg.host = env.lookup "POSTGRES_HOST" ∧
      cfg.username = env.lookup "POSTGRES_USER" ∧
      cfg.password = env.lookup "POSTGRES_PASSWORD" ∧
      cfg.database = env.lookup "POSTGRES_DATABASE" ∧
      cfg.port = (env.lookup "POSTGRES_PORT").bind jsParseInt ∧
      cfg.migrationsTableName = "migration" ∧
      cfg.ssl = ConfigService.isProduction env := by
  have h1 := getValue_ok env "POSTGRES_HOST" (h "POSTGRES_HOST" (by simp [requiredKeys]))
  have h2 := getValue_ok env "POSTGRES_PORT" (h "POSTGRES_PORT" (by simp [requiredKeys]))
  have h3 := getValue_ok env "POSTGRES_USER" (h "POSTGRES_USER" (by simp [requiredKeys]))
  have h4 := getValue_ok env "POSTGRES_PASSWORD" (h "POSTGRES_PASSWORD" (by simp [requiredKeys]))
  have h5 := getValue_ok env "POSTGRES_DATABASE" (h "POSTGRES_DATABASE" (by simp [requiredKeys]))
  refine ⟨{ type := "postgres"
            host := env.lookup "POSTGRES_HOST"
            port := (env.lookup "POSTGRES_PORT").bind jsParseInt
            username := env.lookup "POSTGRES_USER"
            password := env.lookup "POSTGRES_PASSWORD"
            database := env.lookup "POSTGRES_DATABASE"
            entities := ["**/*.entity\x7b.ts,.js\x7d"]
            migrationsTableName := "migration"
            migrations := ["src/migration/*.ts"]
            ssl := ConfigService.isProduction env },
          ?_, rfl, rfl, rfl, rfl, rfl, rfl, rfl⟩
  simp only [ConfigService.getTypeOrmConfig, h1, h2, h3, h4, h5]
  rfl

/-- A full environment for the config witness. -/
def envFull : EnvMap :=
  [("POSTGRES_HOST", "localhost"), ("POSTGRES_PORT", "5432"),
   ("POSTGRES_USER", "postgres"), ("POSTGRES_PASSWORD", "pw"),
   ("POSTGRES_DATABASE", "db"), ("MODE", "DEV")]

/-- C8 witness: the descriptor on a concrete full environment has the
parsed port 5432 and, with MODE=DEV, ssl off. -/
theorem get_typeorm_config_spec_witness :
    ∃ cfg, ConfigService.getTypeOrmConfig envFull = Except.ok cfg ∧
      cfg.host = some "localhost" ∧ cfg.port = some 5432 ∧ cfg.ssl = false := by
  obtain ⟨cfg, hok, hh, _, _, _, hport, _, hssl⟩ :=
    get_typeorm_config_spec envFull (by decide)
  refine ⟨cfg, hok, ?_, ?_, ?_⟩
  · rw [hh]; decide
  · rw [hport]; decide
  · rw [hssl]; decide

/-- C9: `fromEntity` depends only on `id`, `name` and `description`:
two entities agreeing on those three project to equal DTOs however their
audit fields (`createdBy`, timestamps, `isActive`, `isArchived`,
`internalComment`, `lastChangedBy`) differ — no audit field leaks
through the DTO. -/
theorem from_entity_hides_audit (e1 e2 : Item)
    (hid : e1.id = e2.id) (hname : e1.name = e2.name)
    (hdesc : e1.description = e2.description) :
    ItemDTO.fromEntity e1 = ItemDTO.fromEntity e2 := by
  simp [ItemDTO.fromEntity, ItemDTO.«from», hid, hname, hdesc]

/-- C9 witness: two entities with identical `id`/`name`/`description`
but different audit fields give the same DTO. -/
theorem from_entity_hides_audit_witness :
    ItemDTO.fromEntity
      { id := some "a", name := some "n", description := some "d",
        isActive := some true, isArchived := some false,
        createDateTime := some 100, createdBy := some (some "alice"),
        lastChangedDateTime := some 200, lastChangedBy := some (some "bob"),
        internalComment := some (some "x") } =
    ItemDTO.fromEntity { id := some "a", name := some "n", description := some "d" } :=
  from_entity_hides_audit _ _ rfl rfl rfl

/-- C10: `toEntity` assigns exactly `id`, `name`, `description`,
`createDateTime`, `createdBy` and `lastChangedBy`; it leaves `isActive`,
`isArchived`, `lastChangedDateTime` and `internalComment` unset
(undefined, for database defaults on save) — in particular it stamps
`createDateTime` but not `lastChangedDateTime`. -/
theorem to_entity_frame (dto : ItemDTO) (user : Option User) (now : Nat) :
    (ItemDTO.toEntity dto user now).isActive = none ∧
    (ItemDTO.toEntity dto user now).isArchived = none ∧
    (ItemDTO.toEntity dto user now).lastChangedDateTime = none ∧
    (ItemDTO.toEntity dto user now).internalComment = none ∧
    (ItemDTO.toEntity dto user now).id = dto.id ∧
    (ItemDTO.toEntity dto user now).name = some ItemDTO.staticName ∧
    (ItemDTO.toEntity dto user now).description = dto.description ∧
    (ItemDTO.toEntity dto user now).createDateTime = some now ∧
    (ItemDTO.toEntity dto user now).createdBy = some (Option.map User.id user) ∧
    (ItemDTO.toEntity dto user now).lastChangedBy = some (Option.map User.id user) :=
  ⟨rfl, rfl, rfl, rfl, rfl, rfl, rfl, rfl, rfl, rfl⟩

end NestTypeorm
